import Mathlib

/-!
Shallow embedding of the StoneKeeper photograph ingestion pipeline
(`src/backend/src/services/exif_service.py`, `src/backend/src/services/photo_service.py`,
`src/backend/src/api/photos.py`, `src/backend/src/config.py`).

Modelling conventions:
* Python floats are modelled by exact rationals (`ℚ`); `n / d` on integers is exact
  rational division, and `d = 0` (Python `ZeroDivisionError`) is modelled by `Option`.
* Fixed-precision float formatting (Python `:.Nf`) is modelled by rounding the exact
  rational to `N` decimal places with ties to even; this agrees with CPython except on
  decimal ties that are not exactly representable in binary floating point.
* EXIF byte-string values are modelled by `BStr`: either bytes that decode as UTF-8 to a
  Lean `String`, or undecodable bytes (`BStr.bad`, which raises `UnicodeDecodeError`,
  a subclass of `ValueError`, when decoded).  Python truthiness of such a value
  (empty bytes are falsy) is `refTruthy` / `truthyB`.
* Exceptions that escape a helper are modelled with `Except Unit`; helpers that catch
  all of their own exceptions are total functions into `Option`.
* Library-provided inputs that the code merely threads through (the generated UUID,
  the UTC allocation instant, the extension computed by `os.path.splitext`, the
  success of `shutil.copy2` and of Pillow encoding) are explicit parameters.
-/

namespace StoneKeeper

/-- A piexif byte-string tag value: `ok s` are bytes that decode (UTF-8) to `s`,
`bad` are undecodable bytes (necessarily non-empty, hence truthy). -/
inductive BStr where
  | ok (s : String)
  | bad
deriving DecidableEq, Repr

/-- Python truthiness of a byte-string value: empty bytes are falsy. -/
def refTruthy : BStr → Bool
  | .ok s => s != ""
  | .bad => true

/-- Python truthiness of `dict.get(tag)` for a byte-string tag: `None` and empty
bytes are falsy. -/
def truthyB : Option BStr → Bool
  | none => false
  | some v => refTruthy v

/-- EXIF rational decode, `n / d` from the source: exact float quotient, with a zero
denominator raising `ZeroDivisionError` (modelled as `none`). -/
def ratDecode (n d : Int) : Option ℚ :=
  if d = 0 then none else some ((n : ℚ) / (d : ℚ))

/-- A GPS DMS value as produced by piexif: a triple of (numerator, denominator)
pairs for degrees, minutes and seconds. -/
abbrev DmsTriple := (Int × Int) × ((Int × Int) × (Int × Int))

/-- The magnitude expression of `EXIFService._dms_to_decimal` (line 181 of
`exif_service.py`): `degrees + minutes / 60.0 + seconds / 3600.0`. -/
def dmsMagnitude (dn dd mn md sn sd : Int) : ℚ :=
  (dn : ℚ) / (dd : ℚ) + ((mn : ℚ) / (md : ℚ)) / 60 + ((sn : ℚ) / (sd : ℚ)) / 3600

/-- `EXIFService._dms_to_decimal`: decode the three rationals, sum
`degrees + minutes/60 + seconds/3600`, decode the reference bytes and negate exactly
when the decoded reference is the string "S" or "W" (`ref in ["S", "W"]`).  A zero
denominator or undecodable reference raises (caught by the caller): `none`. -/
def dmsToDecimal (dms : DmsTriple) (ref : BStr) : Option ℚ :=
  match ratDecode dms.1.1 dms.1.2, ratDecode dms.2.1.1 dms.2.1.2,
        ratDecode dms.2.2.1 dms.2.2.2 with
  | some degrees, some minutes, some seconds =>
    match ref with
    | .bad => none
    | .ok r =>
      let decimal := degrees + minutes / 60 + seconds / 3600
      some (if r = "S" ∨ r = "W" then -decimal else decimal)
  | _, _, _ => none

/-! ### Date parsing (`datetime.strptime` with layout "%Y:%m:%d %H:%M:%S") -/

/-- A parsed timestamp (the fields of a Python `datetime`). -/
structure DateTime where
  year : Nat
  month : Nat
  day : Nat
  hour : Nat
  minute : Nat
  second : Nat
deriving DecidableEq, Repr

/-- Gregorian leap-year rule, as validated by the `datetime` constructor. -/
def isLeapYear (y : Nat) : Bool :=
  (y % 4 = 0 && y % 100 ≠ 0) || y % 400 = 0

/-- Days in a month, as validated by the `datetime` constructor. -/
def daysInMonth (y m : Nat) : Nat :=
  if m = 2 then (if isLeapYear y then 29 else 28)
  else if m = 4 ∨ m = 6 ∨ m = 9 ∨ m = 11 then 30
  else 31

/-- Split a character list on a separator character (the list-level analogue of
`str.split` on a single separator). -/
def splitOnChar (c : Char) : List Char → List (List Char)
  | [] => [[]]
  | x :: xs =>
    let r := splitOnChar c xs
    if x = c then [] :: r
    else
      match r with
      | [] => [[x]]
      | y :: ys => (x :: y) :: ys

/-- Decimal value of a digit list. -/
def digitsVal (l : List Char) : Nat :=
  l.foldl (fun a c => a * 10 + (c.toNat - 48)) 0

/-- A numeric `strptime` field: one to `maxLen` digits. -/
def numField (l : List Char) (maxLen : Nat) : Option Nat :=
  if 1 ≤ l.length && l.length ≤ maxLen && l.all Char.isDigit then some (digitsVal l)
  else none

/-- `datetime.strptime(s, "%Y:%m:%d %H:%M:%S")`: a four-digit year and one- or
two-digit month/day/hour/minute/second fields, separated exactly as in the layout,
with the whole string consumed and the fields in the ranges the `datetime`
constructor accepts.  Failure (`ValueError`) is `none`. -/
def parseExifDate (s : String) : Option DateTime :=
  match splitOnChar ' ' s.data with
  | [dpart, tpart] =>
    match splitOnChar ':' dpart, splitOnChar ':' tpart with
    | [ys, ms, ds], [hs, mins, secs] => do
      let y ← if ys.length = 4 && ys.all Char.isDigit then some (digitsVal ys) else none
      let mo ← numField ms 2
      let dy ← numField ds 2
      let h ← numField hs 2
      let mi ← numField mins 2
      let sec ← numField secs 2
      if 1 ≤ y ∧ 1 ≤ mo ∧ mo ≤ 12 ∧ 1 ≤ dy ∧ dy ≤ daysInMonth y mo ∧
          h ≤ 23 ∧ mi ≤ 59 ∧ sec ≤ 59 then
        some ⟨y, mo, dy, h, mi, sec⟩
      else none
    | _, _ => none
  | _ => none

/-- Decode-then-parse of a date tag value.  Undecodable bytes raise
`UnicodeDecodeError ⊆ ValueError`, caught by the same handler as a parse failure. -/
def parseDateVal : BStr → Option DateTime
  | .ok s => parseExifDate s
  | .bad => none

/-! ### The EXIF dictionary as loaded by `piexif.load` -/

/-- The tags of the "0th" IFD read by the service. -/
structure ZerothIfd where
  dateTime : Option BStr := none
  make : Option BStr := none
  model : Option BStr := none
deriving DecidableEq, Repr

/-- The tags of the "Exif" IFD read by the service. -/
structure ExifIfd where
  dateTimeOriginal : Option BStr := none
  dateTimeDigitized : Option BStr := none
  focalLength : Option (Int × Int) := none
  fNumber : Option (Int × Int) := none
  exposureTime : Option (Int × Int) := none
  iso : Option Int := none
deriving DecidableEq, Repr

/-- The tags of the "GPS" IFD read by the service. -/
structure GpsIfd where
  latitude : Option DmsTriple := none
  latitudeRef : Option BStr := none
  longitude : Option DmsTriple := none
  longitudeRef : Option BStr := none
deriving DecidableEq, Repr

/-- The dictionary returned by `piexif.load`, restricted to the tags the service
reads. -/
structure ExifDict where
  zeroth : ZerothIfd := {}
  exif : ExifIfd := {}
  gps : GpsIfd := {}
deriving DecidableEq, Repr

/-- `EXIFService._extract_date_taken`: pick the first truthy value among
DateTimeOriginal, DateTimeDigitized and the 0th-IFD DateTime, then parse only that
value; a parse failure returns `None` without trying later candidates. -/
def extractDateTaken (d : ExifDict) : Option DateTime :=
  let ds := d.exif.dateTimeOriginal
  let ds := if truthyB ds then ds else d.exif.dateTimeDigitized
  let ds := if truthyB ds then ds else d.zeroth.dateTime
  if truthyB ds then
    match ds with
    | some v => parseDateVal v
    | none => none
  else none

/-- Python truthiness of a DMS tuple value: a triple is a non-empty tuple, always
truthy; only absence is falsy. -/
def truthyDms : Option DmsTriple → Bool
  | none => false
  | some _ => true

/-- `EXIFService._extract_gps`: require all four of latitude, latitude-ref,
longitude, longitude-ref to be truthy, convert both axes, and catch every
exception (zero denominators, undecodable refs) as `None`.  The source's initial
empty-dict check is subsumed: with any of the four tags missing the result is
already `None`. -/
def extractGps (d : ExifDict) : Option (ℚ × ℚ) :=
  match d.gps.latitude, d.gps.latitudeRef, d.gps.longitude, d.gps.longitudeRef with
  | some lat, some latRef, some lon, some lonRef =>
    if refTruthy latRef && refTruthy lonRef then
      match dmsToDecimal lat latRef, dmsToDecimal lon lonRef with
      | some a, some b => some (a, b)
      | _, _ => none
    else none
  | _, _, _, _ => none

/-- Camera make and model strings. -/
structure CameraInfo where
  make : Option String := none
  model : Option String := none
deriving DecidableEq, Repr

/-- `if value: decode(value)` on a byte-string tag: absent or empty stays absent,
undecodable bytes raise (propagating out of `_extract_camera_info`). -/
def decodeTag : Option BStr → Except Unit (Option String)
  | none => .ok none
  | some (.ok s) => if s != "" then .ok (some s) else .ok none
  | some .bad => .error ()

/-- `EXIFService._extract_camera_info`: decode make then model; a decode failure
escapes the helper (it has no handler of its own). -/
def extractCameraInfo (z : ZerothIfd) : Except Unit CameraInfo := do
  let mk ← decodeTag z.make
  let md ← decodeTag z.model
  pure ⟨mk, md⟩

/-! ### Fixed-precision formatting (Python `:.Nf` format specifications) -/

/-- Left-pad a digit string with zeros to width `w`. -/
def padZeros (s : String) (w : Nat) : String :=
  if s.length < w then String.mk (List.replicate (w - s.length) '0') ++ s else s

/-- Floor of a rational, computed on the numerator and denominator. -/
def ratFloor (q : ℚ) : Int := Int.fdiv q.num (q.den : Int)

/-- Round a rational to the nearest integer, ties to even (CPython rounds the exact
value of the binary float; on exact decimal ties this is ties-to-even). -/
def roundHalfEven (q : ℚ) : Int :=
  let f := ratFloor q
  let frac := q - (f : ℚ)
  if frac < 1 / 2 then f
  else if frac = 1 / 2 then (if f % 2 = 0 then f else f + 1)
  else f + 1

/-- Python fixed-point formatting `format(q, ".<prec>f")`: round to `prec` decimal
places; with `prec = 0` no decimal point is printed. -/
def fmtFixed (q : ℚ) (prec : Nat) : String :=
  let scaled := roundHalfEven (q * ((10 : ℚ) ^ prec))
  let sign := if scaled < 0 then "-" else ""
  let m := scaled.natAbs
  if prec = 0 then sign ++ toString m
  else sign ++ toString (m / 10 ^ prec) ++ "." ++ padZeros (toString (m % 10 ^ prec)) prec

/-! ### Technical settings and the full metadata record -/

/-- The four formatted technical fields. -/
structure TechnicalInfo where
  focal_length : Option String := none
  aperture : Option String := none
  shutter_speed : Option String := none
  iso : Option Int := none
deriving DecidableEq, Repr

/-- `EXIFService._extract_technical_info`: each rational field is guarded by its own
handler, so a zero denominator (`ZeroDivisionError`) leaves only that field absent.
An exposure time with numerator 1 is rendered textually as `1/denominator` without
dividing.  `if iso:` makes an ISO of 0 falsy, hence absent. -/
def extractTechnicalInfo (e : ExifIfd) : TechnicalInfo :=
  let fl := match e.focalLength with
    | some (n, d) =>
      match ratDecode n d with
      | some q => some (fmtFixed q 0 ++ "mm")
      | none => none
    | none => none
  let ap := match e.fNumber with
    | some (n, d) =>
      match ratDecode n d with
      | some q => some ("f/" ++ fmtFixed q 1)
      | none => none
    | none => none
  let ss := match e.exposureTime with
    | some (n, d) =>
      if n = 1 then some ("1/" ++ toString d)
      else
        match ratDecode n d with
        | some q => some (fmtFixed q 2 ++ "s")
        | none => none
    | none => none
  let isoV := match e.iso with
    | some k => if k ≠ 0 then some k else none
    | none => none
  ⟨fl, ap, ss, isoV⟩

/-- The dictionary returned by `EXIFService.extract_metadata`; every field may be
`none`. -/
structure Metadata where
  date_taken : Option DateTime := none
  gps_latitude : Option ℚ := none
  gps_longitude : Option ℚ := none
  camera_make : Option String := none
  camera_model : Option String := none
  focal_length : Option String := none
  aperture : Option String := none
  shutter_speed : Option String := none
  iso : Option Int := none
  image_width : Option Int := none
  image_height : Option Int := none
deriving DecidableEq, Repr

/-- The outcome of `piexif.load` on the image's EXIF bytes: failure raises inside
the top-level handler; success yields the tag dictionary. -/
inductive ExifLoad where
  | loadFail
  | loaded (d : ExifDict)
deriving DecidableEq, Repr

/-- The image file handed to `extract_metadata`: either `Image.open` raises, or the
image opens with the given pixel dimensions and EXIF bytes. -/
inductive ImageInput where
  | unreadable
  | readable (width height : Int) (exif : ExifLoad)
deriving DecidableEq, Repr

/-- `EXIFService.extract_metadata`: fill the all-`None` record step by step inside a
single catch-all handler.  An exception at any step (unopenable image, EXIF load
failure, camera-info decode failure) returns the record as populated so far. -/
def extract_metadata (img : ImageInput) : Metadata :=
  match img with
  | .unreadable => {}
  | .readable w h ex =>
    let m : Metadata := { image_width := some w, image_height := some h }
    match ex with
    | .loadFail => m
    | .loaded d =>
      let m := match extractDateTaken d with
        | some dt => { m with date_taken := some dt }
        | none => m
      let m := match extractGps d with
        | some p => { m with gps_latitude := some p.1, gps_longitude := some p.2 }
        | none => m
      match extractCameraInfo d.zeroth with
      | .error _ => m
      | .ok ci =>
        let m := { m with camera_make := ci.make, camera_model := ci.model }
        let t := extractTechnicalInfo d.exif
        { m with focal_length := t.focal_length, aperture := t.aperture,
                 shutter_speed := t.shutter_speed, iso := t.iso }

/-! ### Storage paths and derivative generation (`photo_service.py`) -/

/-- The UTC allocation instant (`datetime.utcnow()`), reduced to the fields the
path computation reads. -/
structure UtcInstant where
  year : Nat
  month : Nat
deriving DecidableEq, Repr

/-- `strftime("%m")`: the month zero-padded to two digits. -/
def fmt02 (n : Nat) : String := padZeros (toString n) 2

/-- `strftime("%Y")`: the four-digit year. -/
def fmt04 (n : Nat) : String := padZeros (toString n) 4

/-- The result of `PhotoStorageService._get_storage_path`: the computed file path
and the directory the method creates (`mkdir(parents=True, exist_ok=True)`). -/
structure StoragePathResult where
  path : String
  dirCreated : String
deriving DecidableEq, Repr

/-- `PhotoStorageService._get_storage_path`: `base/YYYY/MM/uuid + sfx + extension`,
creating the `base/YYYY/MM` directory. -/
def getStoragePath (baseDir : String) (now : UtcInstant) (photoUuid : String)
    (fileExtension : String) (sfx : String) : StoragePathResult :=
  let dirPath := baseDir ++ "/" ++ fmt04 now.year ++ "/" ++ fmt02 now.month
  { path := dirPath ++ "/" ++ (photoUuid ++ sfx ++ fileExtension), dirCreated := dirPath }

/-- The environment of a `PhotoStorageService` call: the storage root, the UTC
instant, and the outcomes of the filesystem copy and of the two Pillow derivative
generators (which catch their own exceptions and return a boolean). -/
structure StorageEnv where
  baseDir : String
  now : UtcInstant
  copyOk : Bool
  thumbOk : Bool
  previewOk : Bool
deriving DecidableEq, Repr

/-- `PhotoStorageService.save_photo`: compute the destination path and copy the
source file there; a copy failure raises (`Except.error`). -/
def save_photo (env : StorageEnv) (photoUuid : String) (fileExtension : String) :
    Except Unit (String × String) :=
  let dest := getStoragePath env.baseDir env.now photoUuid fileExtension ""
  if env.copyOk then .ok (photoUuid, dest.path) else .error ()

/-- `PhotoStorageService.save_with_thumbnails`: save the original, then attempt the
thumbnail and the preview independently; a failed derivative yields `none` for its
path only. -/
def save_with_thumbnails (env : StorageEnv) (photoUuid : String)
    (fileExtension : String) :
    Except Unit (String × String × Option String × Option String) := do
  let (u, originalPath) ← save_photo env photoUuid fileExtension
  let thumbDest := getStoragePath env.baseDir env.now u ".jpg" "_thumb"
  let thumbnailPath := if env.thumbOk then some thumbDest.path else none
  let previewDest := getStoragePath env.baseDir env.now u ".jpg" "_preview"
  let previewPath := if env.previewOk then some previewDest.path else none
  pure (u, originalPath, thumbnailPath, previewPath)

/-! ### Upload endpoint (`api/photos.py`) and configuration (`config.py`) -/

/-- `config.MAX_FILE_SIZE_BYTES = 20 * 1024 * 1024`. -/
def MAX_FILE_SIZE_BYTES : Nat := 20 * 1024 * 1024

/-- `config.ALLOWED_EXTENSIONS` (a set in the source; order is irrelevant). -/
def ALLOWED_EXTENSIONS : List String := [".jpg", ".jpeg", ".png", ".tiff", ".tif"]

/-- `config.ALLOWED_MIME_TYPES`. -/
def ALLOWED_MIME_TYPES : List String := ["image/jpeg", "image/png", "image/tiff"]

/-- Python `str.lower()` (the inputs of interest are ASCII). -/
def toLowerStr (s : String) : String := ⟨s.data.map Char.toLower⟩

/-- Python `str.endswith(post)`. -/
def endsWithStr (s post : String) : Bool :=
  post.data.length ≤ s.data.length &&
    s.data.drop (s.data.length - post.data.length) == post.data

/-- `config.is_allowed_file_extension`: the lowercased filename ends with an allowed
extension. -/
def is_allowed_file_extension (filename : String) : Bool :=
  ALLOWED_EXTENSIONS.any (fun ext => endsWithStr (toLowerStr filename) ext)

/-- `config.is_allowed_mime_type`: the lowercased MIME type is in the allowed set. -/
def is_allowed_mime_type (mimeType : String) : Bool :=
  ALLOWED_MIME_TYPES.contains (toLowerStr mimeType)

/-- `CemeteryService._normalize_gps` renders the pair as a WKT string
("SRID=4326;POINT(lon lat)"); the embedding keeps the coordinate pair itself, since
the claims concern only whether and which coordinate is stored. -/
def normalize_gps (latitude longitude : ℚ) : ℚ × ℚ := (latitude, longitude)

/-- Python truthiness of an extracted GPS coordinate (`exif_data.get(...)`):
`None` and `0.0` are falsy. -/
def truthyQ : Option ℚ → Bool
  | none => false
  | some q => q ≠ 0

/-- The HTTP errors `upload_photo` can raise, in source order: invalid extension
(400), invalid MIME type (400), unknown cemetery (404), size exceeded (413), and an
uncaught storage-write failure. -/
inductive UploadError where
  | invalidFileType
  | invalidMimeType
  | cemeteryNotFound
  | fileTooLarge
  | storageWriteFailure
deriving DecidableEq, Repr

/-- Filesystem and decoding effects of `upload_photo`, in the order the source
performs them. -/
inductive FsEvent where
  | tempWrite
  | exifDecode
  | originalWrite
  | thumbWrite
  | previewWrite
deriving DecidableEq, Repr

/-- An upload request as seen by `upload_photo`: the declared filename and MIME
type, whether the referenced cemetery exists, the byte length of the uploaded
content, what those bytes decode to as an image, and the storage environment. -/
structure UploadRequest where
  filename : String
  contentType : String
  cemeteryExists : Bool
  contentSize : Nat
  image : ImageInput
  storage : StorageEnv
deriving DecidableEq, Repr

/-- The photograph record assembled by `upload_photo` (the fields fed by the
ingestion pipeline). -/
structure PhotographRecord where
  file_path : String
  thumbnail_path : Option String
  preview_path : Option String
  file_size_bytes : Nat
  exif_date_taken : Option DateTime
  exif_camera_make : Option String
  exif_camera_model : Option String
  exif_focal_length : Option String
  exif_aperture : Option String
  exif_shutter_speed : Option String
  exif_iso : Option Int
  image_width : Option Int
  image_height : Option Int
  exif_gps_location : Option (ℚ × ℚ)
deriving DecidableEq, Repr

/-- `upload_photo`: validate extension, MIME type, cemetery and size in that order;
then write the staging temp file, extract metadata, save the original with its
derivatives, and attach the GPS pair only when both coordinates are truthy.  The
generated UUID and the extension computed by `os.path.splitext` are parameters.
The second component lists the filesystem/decoding events performed. -/
def upload_photo (req : UploadRequest) (photoUuid : String) (fileExt : String) :
    Except UploadError PhotographRecord × List FsEvent :=
  if ¬ is_allowed_file_extension req.filename then (.error .invalidFileType, [])
  else if ¬ is_allowed_mime_type req.contentType then (.error .invalidMimeType, [])
  else if ¬ req.cemeteryExists then (.error .cemeteryNotFound, [])
  else if MAX_FILE_SIZE_BYTES < req.contentSize then (.error .fileTooLarge, [])
  else
    let exifData := extract_metadata req.image
    match save_with_thumbnails req.storage photoUuid fileExt with
    | .error _ => (.error .storageWriteFailure, [.tempWrite, .exifDecode])
    | .ok (_, originalPath, thumbnailPath, previewPath) =>
      let events := [FsEvent.tempWrite, FsEvent.exifDecode, FsEvent.originalWrite]
        ++ (if thumbnailPath.isSome then [FsEvent.thumbWrite] else [])
        ++ (if previewPath.isSome then [FsEvent.previewWrite] else [])
      let r0 : PhotographRecord :=
        { file_path := originalPath
          thumbnail_path := thumbnailPath
          preview_path := previewPath
          file_size_bytes := req.contentSize
          exif_date_taken := exifData.date_taken
          exif_camera_make := exifData.camera_make
          exif_camera_model := exifData.camera_model
          exif_focal_length := exifData.focal_length
          exif_aperture := exifData.aperture
          exif_shutter_speed := exifData.shutter_speed
          exif_iso := exifData.iso
          image_width := exifData.image_width
          image_height := exifData.image_height
          exif_gps_location := none }
      let loc := normalize_gps (exifData.gps_latitude.getD 0) (exifData.gps_longitude.getD 0)
      let r1 :=
        if truthyQ exifData.gps_latitude && truthyQ exifData.gps_longitude then
          { r0 with exif_gps_location := some loc }
        else r0
      (.ok r1, events)

/-! ### Spec-side comparison definition and concrete inputs -/

/-- Modelled from the spec (for comparison with `extractDateTaken`): the date chain
as the spec words it, trying each candidate in order and reporting the first
candidate that parses, with a candidate that fails to parse treated as absent and
the chain proceeding to the next one. -/
def extractDateTakenSpecChain (d : ExifDict) : Option DateTime :=
  (d.exif.dateTimeOriginal.bind parseDateVal).orElse fun _ =>
    (d.exif.dateTimeDigitized.bind parseDateVal).orElse fun _ =>
      d.zeroth.dateTime.bind parseDateVal

/-- A record whose DateTimeOriginal is present but unparseable while
DateTimeDigitized is present and parseable. -/
def c1Dict : ExifDict :=
  { exif := { dateTimeOriginal := some (.ok "garbage"),
              dateTimeDigitized := some (.ok "2024:01:15 14:30:00") } }

/-- A GPS IFD whose latitude is 200 degrees north: all four tags present, so the
coordinate is emitted, without any range validation. -/
def c2Dict : ExifDict :=
  { gps := { latitude := some ((200, 1), ((0, 1), (0, 1))), latitudeRef := some (.ok "N"),
             longitude := some ((10, 1), ((0, 1), (0, 1))), longitudeRef := some (.ok "E") } }

/-- A GPS IFD with the longitude reference missing. -/
def c2wDict : ExifDict :=
  { gps := { latitude := some ((10, 1), ((0, 1), (0, 1))), latitudeRef := some (.ok "N"),
             longitude := some ((10, 1), ((0, 1), (0, 1))), longitudeRef := none } }

/-- A record with an undecodable camera make next to a valid camera model and a
valid focal length. -/
def c5Dict : ExifDict :=
  { zeroth := { make := some .bad, model := some (.ok "Canon") },
    exif := { focalLength := some (50, 1) } }

/-- The same record with the camera make absent. -/
def c5DictNoMake : ExifDict :=
  { zeroth := { model := some (.ok "Canon") },
    exif := { focalLength := some (50, 1) } }

/-- A record whose selected date candidate is present but unparseable, next to a
valid focal length. -/
def c5DateDict : ExifDict :=
  { exif := { dateTimeOriginal := some (.ok "garbage"), focalLength := some (50, 1) } }

/-- The same record with every date tag absent. -/
def c5DateStripped : ExifDict :=
  { exif := { focalLength := some (50, 1) } }

/-- A record whose GPS conversion fails on a zero denominator in both axes, with
all four GPS tags present. -/
def c5GpsFailDict : ExifDict :=
  { gps := { latitude := some ((1, 0), ((0, 1), (0, 1))), latitudeRef := some (.ok "N"),
             longitude := some ((1, 0), ((0, 1), (0, 1))), longitudeRef := some (.ok "E") } }

/-- A storage environment in which thumbnail generation fails but preview
generation succeeds. -/
def c6Env : StorageEnv := ⟨"root", ⟨2024, 5⟩, true, false, true⟩

/-- A storage environment in which every filesystem operation succeeds. -/
def c7Env : StorageEnv := ⟨"root", ⟨2024, 5⟩, true, true, true⟩

/-- An oversize upload whose filename also has a disallowed extension. -/
def c7Req : UploadRequest :=
  { filename := "photo.bmp", contentType := "image/jpeg", cemeteryExists := true,
    contentSize := MAX_FILE_SIZE_BYTES + 1, image := .unreadable, storage := c7Env }

/-- An oversize upload that passes the extension, MIME-type and cemetery checks. -/
def c7wReq : UploadRequest :=
  { filename := "photo.jpg", contentType := "image/jpeg", cemeteryExists := true,
    contentSize := MAX_FILE_SIZE_BYTES + 1, image := .unreadable, storage := c7Env }

/-- An image whose extracted GPS latitude is exactly 0 (on the equator) with a
nonzero longitude. -/
def c10Dict : ExifDict :=
  { gps := { latitude := some ((0, 1), ((0, 1), (0, 1))), latitudeRef := some (.ok "N"),
             longitude := some ((5, 1), ((0, 1), (0, 1))), longitudeRef := some (.ok "E") } }

/-- A fully valid upload request whose image carries the equator GPS coordinate. -/
def c10Req : UploadRequest :=
  { filename := "photo.jpg", contentType := "image/jpeg", cemeteryExists := true,
    contentSize := 1000, image := .readable 100 80 (.loaded c10Dict), storage := c7Env }

/-! ### Helper lemmas -/

/-- Unfolded shape of `extract_metadata` on a readable image with loaded EXIF:
dimensions, date and GPS first, then camera and technical fields unless the
camera-info extraction raises. -/
theorem extract_metadata_loaded (w h : Int) (d : ExifDict) :
    extract_metadata (.readable w h (.loaded d)) =
      match extractCameraInfo d.zeroth with
      | .error _ =>
        { image_width := some w, image_height := some h,
          date_taken := extractDateTaken d,
          gps_latitude := (extractGps d).map Prod.fst,
          gps_longitude := (extractGps d).map Prod.snd }
      | .ok ci =>
        { image_width := some w, image_height := some h,
          date_taken := extractDateTaken d,
          gps_latitude := (extractGps d).map Prod.fst,
          gps_longitude := (extractGps d).map Prod.snd,
          camera_make := ci.make, camera_model := ci.model,
          focal_length := (extractTechnicalInfo d.exif).focal_length,
          aperture := (extractTechnicalInfo d.exif).aperture,
          shutter_speed := (extractTechnicalInfo d.exif).shutter_speed,
          iso := (extractTechnicalInfo d.exif).iso } := by
  unfold extract_metadata
  cases hd : extractDateTaken d <;> cases hg : extractGps d <;>
    cases hc : extractCameraInfo d.zeroth <;> simp [hd, hg, hc]

/-- If any of the four GPS tags is missing, `_extract_gps` returns `None`. -/
theorem extractGps_none_of_missing (d : ExifDict)
    (h : d.gps.latitude = none ∨ d.gps.latitudeRef = none ∨
         d.gps.longitude = none ∨ d.gps.longitudeRef = none) :
    extractGps d = none := by
  unfold extractGps
  cases hl : d.gps.latitude <;> cases hlr : d.gps.latitudeRef <;>
    cases hlo : d.gps.longitude <;> cases hlor : d.gps.longitudeRef <;> simp_all

/-- An undecodable camera make raises out of `_extract_camera_info`. -/
theorem extractCameraInfo_error_of_bad_make (z : ZerothIfd)
    (h : z.make = some BStr.bad) : extractCameraInfo z = .error () := by
  unfold extractCameraInfo
  rw [h]
  rfl

/-- Truthiness of a present byte-string value. -/
theorem truthyB_some (v : BStr) : truthyB (some v) = refTruthy v := rfl

/-- Truthiness of an absent byte-string value. -/
theorem truthyB_none : truthyB none = false := rfl

/-! ### Claim theorems -/

/-- C1 (counterexample): with DateTimeOriginal present but unparseable and
DateTimeDigitized present and parseable, the source reports no date at all — it
selects the first present candidate and never retries a later candidate after a
parse failure, while the claim requires the digitized value to be reported. -/
theorem c1_counterexample :
    extractDateTaken c1Dict = none ∧
    parseDateVal (BStr.ok "2024:01:15 14:30:00") = some ⟨2024, 1, 15, 14, 30, 0⟩ ∧
    extractDateTakenSpecChain c1Dict = some ⟨2024, 1, 15, 14, 30, 0⟩ := by
  refine ⟨by decide, by decide, by decide⟩

/-- C1 (amended): the fallback chain selects by presence, not by parse success: the
first truthy candidate among DateTimeOriginal, DateTimeDigitized and the top-level
DateTime is the only one parsed under the exact layout, a parse failure of the
selected candidate reports absent without proceeding to the next candidate, and a
record with no truthy candidate reports absent. -/
theorem c1_date_chain (d : ExifDict) :
    (∀ v, d.exif.dateTimeOriginal = some v → refTruthy v →
      extractDateTaken d = parseDateVal v) ∧
    (¬ truthyB d.exif.dateTimeOriginal →
      ∀ v, d.exif.dateTimeDigitized = some v → refTruthy v →
        extractDateTaken d = parseDateVal v) ∧
    (¬ truthyB d.exif.dateTimeOriginal → ¬ truthyB d.exif.dateTimeDigitized →
      ∀ v, d.zeroth.dateTime = some v → refTruthy v →
        extractDateTaken d = parseDateVal v) ∧
    (¬ truthyB d.exif.dateTimeOriginal → ¬ truthyB d.exif.dateTimeDigitized →
      ¬ truthyB d.zeroth.dateTime → extractDateTaken d = none) := by
  refine ⟨?_, ?_, ?_, ?_⟩
  · intro v hv htr
    simp [extractDateTaken, hv, truthyB_some, htr]
  · intro hn v hv htr
    simp only [Bool.not_eq_true] at hn
    simp [extractDateTaken, hn, hv, truthyB_some, htr]
  · intro hn1 hn2 v hv htr
    simp only [Bool.not_eq_true] at hn1 hn2
    simp [extractDateTaken, hn1, hn2, hv, truthyB_some, htr]
  · intro hn1 hn2 hn3
    simp only [Bool.not_eq_true] at hn1 hn2 hn3
    simp [extractDateTaken, hn1, hn2, hn3]

/-- C1 (witness): on the record of the counterexample the selected candidate is the
unparseable DateTimeOriginal, so the chain's result is that candidate's parse. -/
theorem c1_witness :
    extractDateTaken c1Dict = parseDateVal (BStr.ok "garbage") :=
  (c1_date_chain c1Dict).1 (BStr.ok "garbage") rfl (by decide)

/-- C2 (counterexample): a latitude DMS of 200 degrees with all four GPS tags
present yields a present coordinate of latitude 200, outside [-90, 90] — the
source performs no range validation. -/
theorem c2_counterexample :
    (extract_metadata (.readable 100 80 (.loaded c2Dict))).gps_latitude = some 200 ∧
    (extract_metadata (.readable 100 80 (.loaded c2Dict))).gps_longitude = some 10 ∧
    ¬ ((200 : ℚ) ≤ 90) := by
  have hg : extractGps c2Dict = some (200, 10) := by
    rw [extractGps]
    show (if refTruthy (.ok "N") && refTruthy (.ok "E") then _ else _) = _
    rw [if_pos (by decide)]
    have hlat : dmsToDecimal ((200, 1), ((0, 1), (0, 1))) (BStr.ok "N") = some 200 := by
      norm_num [dmsToDecimal, ratDecode]
      decide
    have hlon : dmsToDecimal ((10, 1), ((0, 1), (0, 1))) (BStr.ok "E") = some 10 := by
      norm_num [dmsToDecimal, ratDecode]
      decide
    rw [hlat, hlon]
  rw [extract_metadata_loaded]
  cases hc : extractCameraInfo c2Dict.zeroth <;> simp [hg] <;> norm_num

/-- C2 (amended): the metadata's gps_latitude is present if and only if
gps_longitude is present, and if any one of latitude-DMS, latitude-ref,
longitude-DMS, longitude-ref is missing both are absent; the emitted pair is the
raw DMS conversion, with no range validation performed. -/
theorem c2_gps_pairing (img : ImageInput) :
    ((extract_metadata img).gps_latitude.isSome ↔
      (extract_metadata img).gps_longitude.isSome) ∧
    (∀ w h d, img = .readable w h (.loaded d) →
      (d.gps.latitude = none ∨ d.gps.latitudeRef = none ∨
       d.gps.longitude = none ∨ d.gps.longitudeRef = none) →
      (extract_metadata img).gps_latitude = none ∧
      (extract_metadata img).gps_longitude = none) := by
  constructor
  · match img with
    | .unreadable => simp [extract_metadata]
    | .readable w h .loadFail => simp [extract_metadata]
    | .readable w h (.loaded d) =>
      rw [extract_metadata_loaded]
      cases hc : extractCameraInfo d.zeroth <;> cases hg : extractGps d <;> simp
  · intro w h d himg hmiss
    subst himg
    have hg : extractGps d = none := extractGps_none_of_missing d hmiss
    rw [extract_metadata_loaded]
    cases hc : extractCameraInfo d.zeroth <;> simp [hg]

/-- C2 (witness): a GPS IFD with the longitude reference missing yields a record
with both coordinates absent. -/
theorem c2_witness :
    (extract_metadata (.readable 5 5 (.loaded c2wDict))).gps_latitude = none ∧
    (extract_metadata (.readable 5 5 (.loaded c2wDict))).gps_longitude = none :=
  (c2_gps_pairing (.readable 5 5 (.loaded c2wDict))).2 5 5 c2wDict rfl
    (Or.inr (Or.inr (Or.inr rfl)))

/-- C3 (counterexample): the source checks the reference against the exact strings
"S" and "W", so the lowercase hemisphere "s" is not negated: 10 degrees south in
lowercase converts to +10, not to a negative value as the claim's case-insensitive
reading requires. -/
theorem c3_counterexample :
    dmsToDecimal ((10, 1), ((0, 1), (0, 1))) (BStr.ok "s") = some 10 ∧
    ¬ ((10 : ℚ) < 0) := by
  constructor
  · norm_num [dmsToDecimal, ratDecode]
    exact ⟨by decide, by decide⟩
  · norm_num

/-- C3 (amended): for rational triples with nonzero denominators, DMS conversion
returns degrees + minutes/60 + seconds/3600, negated exactly when the reference is
the exact uppercase string "S" or "W"; consequently, when the magnitude is
non-negative, an exact "S"/"W" reference yields a non-positive result and every
other reference (including lowercase "s"/"w") yields a non-negative result. -/
theorem c3_dms_conversion (dn dd mn md sn sd : Int) (ref : String)
    (hdd : dd ≠ 0) (hmd : md ≠ 0) (hsd : sd ≠ 0) :
    dmsToDecimal ((dn, dd), ((mn, md), (sn, sd))) (BStr.ok ref) =
      some (if ref = "S" ∨ ref = "W" then -dmsMagnitude dn dd mn md sn sd
            else dmsMagnitude dn dd mn md sn sd) ∧
    (0 ≤ dmsMagnitude dn dd mn md sn sd →
      ∀ q, dmsToDecimal ((dn, dd), ((mn, md), (sn, sd))) (BStr.ok ref) = some q →
        ((ref = "S" ∨ ref = "W") → q ≤ 0) ∧ (¬ (ref = "S" ∨ ref = "W") → 0 ≤ q)) := by
  have h1 : dmsToDecimal ((dn, dd), ((mn, md), (sn, sd))) (BStr.ok ref) =
      some (if ref = "S" ∨ ref = "W" then -dmsMagnitude dn dd mn md sn sd
            else dmsMagnitude dn dd mn md sn sd) := by
    simp [dmsToDecimal, ratDecode, hdd, hmd, hsd, dmsMagnitude]
  refine ⟨h1, ?_⟩
  intro hm q hq
  rw [h1] at hq
  have hq2 := Option.some.inj hq
  by_cases hsw : ref = "S" ∨ ref = "W"
  · rw [if_pos hsw] at hq2
    exact ⟨fun _ => by rw [← hq2]; linarith, fun hns => absurd hsw hns⟩
  · rw [if_neg hsw] at hq2
    exact ⟨fun hs => absurd hs hsw, fun _ => by rw [← hq2]; exact hm⟩

/-- C3 (witness): 10 degrees 30 minutes west converts to -21/2. -/
theorem c3_witness :
    dmsToDecimal ((10, 1), ((30, 1), (0, 1))) (BStr.ok "W") = some (-(21 / 2 : ℚ)) := by
  have h := (c3_dms_conversion 10 1 30 1 0 1 "W" (by decide) (by decide) (by decide)).1
  rw [h]
  norm_num [dmsMagnitude]

/-- C5 (counterexample): an undecodable camera make raises out of
`_extract_camera_info` into the top-level handler, so the valid camera model and
the valid focal length of the same record are also lost — the failure is not
confined to the failing tag, contradicting the claim that other fields stay
intact. -/
theorem c5_counterexample :
    (extract_metadata (.readable 100 80 (.loaded c5Dict))).camera_model = none ∧
    (extract_metadata (.readable 100 80 (.loaded c5Dict))).focal_length = none ∧
    (extract_metadata (.readable 100 80 (.loaded c5DictNoMake))).camera_model =
      some "Canon" ∧
    (extract_metadata (.readable 100 80 (.loaded c5DictNoMake))).focal_length =
      some "50mm" := by
  have hbad : extractCameraInfo c5Dict.zeroth = .error () := rfl
  have hok : extractCameraInfo c5DictNoMake.zeroth = .ok ⟨none, some "Canon"⟩ := rfl
  have hfl : (extractTechnicalInfo c5DictNoMake.exif).focal_length = some "50mm" := by
    have hq : ratDecode 50 1 = some 50 := by norm_num [ratDecode]
    have hr : roundHalfEven ((50 : ℚ) * 10 ^ 0) = 50 := by
      norm_num [roundHalfEven, ratFloor]
    show (extractTechnicalInfo { focalLength := some (50, 1) }).focal_length = _
    rw [extractTechnicalInfo]
    simp only [hq]
    rw [fmtFixed, hr]
    rfl
  refine ⟨?_, ?_, ?_, ?_⟩
  · rw [extract_metadata_loaded, hbad]
  · rw [extract_metadata_loaded, hbad]
  · rw [extract_metadata_loaded, hok]
  · rw [extract_metadata_loaded, hok]
    exact hfl

/-- C5 (amended): extract_metadata is total (never raises): an unopenable image
yields the all-None record; a readable image always has its dimensions; a failing
date extraction (including a parse failure of the selected candidate) is
indistinguishable from a record with no date tags, affecting only date_taken; a
failing GPS extraction (missing tags or decode failure) is indistinguishable from
an empty GPS IFD, affecting only the coordinate pair; a zero-denominator focal
length, F-number, or exposure time with numerator ≠ 1 is indistinguishable from an
absent tag, affecting no other field; but an undecodable camera make propagates to
the top-level handler, dropping the camera and technical fields together while the
earlier-extracted dimensions, date and GPS remain. -/
theorem c5_error_containment :
    extract_metadata .unreadable = ({} : Metadata) ∧
    (∀ w h ex, (extract_metadata (.readable w h ex)).image_width = some w ∧
      (extract_metadata (.readable w h ex)).image_height = some h) ∧
    (∀ w h dt mk md dto dtd fo fn et isoV (g : GpsIfd),
      extractDateTaken ⟨⟨dt, mk, md⟩, ⟨dto, dtd, fo, fn, et, isoV⟩, g⟩ = none →
      extract_metadata (.readable w h (.loaded ⟨⟨dt, mk, md⟩, ⟨dto, dtd, fo, fn, et, isoV⟩, g⟩)) =
      extract_metadata (.readable w h (.loaded ⟨⟨none, mk, md⟩, ⟨none, none, fo, fn, et, isoV⟩, g⟩))) ∧
    (∀ w h (z : ZerothIfd) (e : ExifIfd) (g : GpsIfd),
      extractGps ⟨z, e, g⟩ = none →
      extract_metadata (.readable w h (.loaded ⟨z, e, g⟩)) =
      extract_metadata (.readable w h (.loaded ⟨z, e, {}⟩))) ∧
    (∀ w h z g dto dtd fn et isoV n,
      extract_metadata (.readable w h (.loaded ⟨z, ⟨dto, dtd, some (n, 0), fn, et, isoV⟩, g⟩)) =
      extract_metadata (.readable w h (.loaded ⟨z, ⟨dto, dtd, none, fn, et, isoV⟩, g⟩))) ∧
    (∀ w h z g dto dtd fo et isoV n,
      extract_metadata (.readable w h (.loaded ⟨z, ⟨dto, dtd, fo, some (n, 0), et, isoV⟩, g⟩)) =
      extract_metadata (.readable w h (.loaded ⟨z, ⟨dto, dtd, fo, none, et, isoV⟩, g⟩))) ∧
    (∀ w h z g dto dtd fo fn isoV n, n ≠ 1 →
      extract_metadata (.readable w h (.loaded ⟨z, ⟨dto, dtd, fo, fn, some (n, 0), isoV⟩, g⟩)) =
      extract_metadata (.readable w h (.loaded ⟨z, ⟨dto, dtd, fo, fn, none, isoV⟩, g⟩))) ∧
    (∀ w h d, d.zeroth.make = some BStr.bad →
      (extract_metadata (.readable w h (.loaded d))).camera_make = none ∧
      (extract_metadata (.readable w h (.loaded d))).camera_model = none ∧
      (extract_metadata (.readable w h (.loaded d))).focal_length = none ∧
      (extract_metadata (.readable w h (.loaded d))).aperture = none ∧
      (extract_metadata (.readable w h (.loaded d))).shutter_speed = none ∧
      (extract_metadata (.readable w h (.loaded d))).iso = none ∧
      (extract_metadata (.readable w h (.loaded d))).image_width = some w ∧
      (extract_metadata (.readable w h (.loaded d))).date_taken = extractDateTaken d ∧
      (extract_metadata (.readable w h (.loaded d))).gps_latitude =
        (extractGps d).map Prod.fst) := by
  refine ⟨rfl, ?_, ?_, ?_, ?_, ?_, ?_, ?_⟩
  · intro w h ex
    match ex with
    | .loadFail => exact ⟨rfl, rfl⟩
    | .loaded d =>
      rw [extract_metadata_loaded]
      cases hc : extractCameraInfo d.zeroth <;> simp
  · intro w h dt mk md dto dtd fo fn et isoV g hdn
    have hd2 : extractDateTaken ⟨⟨none, mk, md⟩, ⟨none, none, fo, fn, et, isoV⟩, g⟩ =
        none := rfl
    have hcam : extractCameraInfo ⟨dt, mk, md⟩ =
        extractCameraInfo (⟨none, mk, md⟩ : ZerothIfd) := rfl
    rw [extract_metadata_loaded, extract_metadata_loaded]
    cases hc : extractCameraInfo (⟨none, mk, md⟩ : ZerothIfd) <;>
      simp [hcam, hc, hdn, hd2, extractGps, extractTechnicalInfo]
  · intro w h z e g hgn
    have hg2 : extractGps ⟨z, e, ({} : GpsIfd)⟩ = none := rfl
    rw [extract_metadata_loaded, extract_metadata_loaded]
    cases hc : extractCameraInfo z <;>
      simp [hc, hgn, hg2, extractDateTaken, extractTechnicalInfo]
  · intro w h z g dto dtd fn et isoV n
    rw [extract_metadata_loaded, extract_metadata_loaded]
    cases hc : extractCameraInfo z <;>
      simp [extractDateTaken, extractGps, extractTechnicalInfo, ratDecode]
  · intro w h z g dto dtd fo et isoV n
    rw [extract_metadata_loaded, extract_metadata_loaded]
    cases hc : extractCameraInfo z <;>
      simp [extractDateTaken, extractGps, extractTechnicalInfo, ratDecode]
  · intro w h z g dto dtd fo fn isoV n hn
    rw [extract_metadata_loaded, extract_metadata_loaded]
    cases hc : extractCameraInfo z <;>
      simp [extractDateTaken, extractGps, extractTechnicalInfo, ratDecode, hn]
  · intro w h d hmake
    rw [extract_metadata_loaded, extractCameraInfo_error_of_bad_make d.zeroth hmake]
    exact ⟨rfl, rfl, rfl, rfl, rfl, rfl, rfl, rfl, rfl⟩

/-- C5 (witness): a present-but-unparseable DateTimeOriginal is indistinguishable
from absent date tags; a zero-denominator GPS record is indistinguishable from an
empty GPS IFD; and on the concrete record with an undecodable make, a valid model
and a valid focal length, the camera and technical fields are dropped while the
dimensions, date and GPS projections are as extracted. -/
theorem c5_witness :
    extract_metadata (.readable 100 80 (.loaded c5DateDict)) =
      extract_metadata (.readable 100 80 (.loaded c5DateStripped)) ∧
    extract_metadata (.readable 100 80 (.loaded c5GpsFailDict)) =
      extract_metadata (.readable 100 80 (.loaded {})) ∧
    (extract_metadata (.readable 100 80 (.loaded c5Dict))).camera_make = none ∧
    (extract_metadata (.readable 100 80 (.loaded c5Dict))).camera_model = none ∧
    (extract_metadata (.readable 100 80 (.loaded c5Dict))).focal_length = none ∧
    (extract_metadata (.readable 100 80 (.loaded c5Dict))).aperture = none ∧
    (extract_metadata (.readable 100 80 (.loaded c5Dict))).shutter_speed = none ∧
    (extract_metadata (.readable 100 80 (.loaded c5Dict))).iso = none ∧
    (extract_metadata (.readable 100 80 (.loaded c5Dict))).image_width = some 100 ∧
    (extract_metadata (.readable 100 80 (.loaded c5Dict))).date_taken =
      extractDateTaken c5Dict ∧
    (extract_metadata (.readable 100 80 (.loaded c5Dict))).gps_latitude =
      (extractGps c5Dict).map Prod.fst :=
  ⟨c5_error_containment.2.2.1 100 80 none none none (some (.ok "garbage")) none
      (some (50, 1)) none none none {} (by decide),
   c5_error_containment.2.2.2.1 100 80 {} {} c5GpsFailDict.gps rfl,
   c5_error_containment.2.2.2.2.2.2.2 100 80 c5Dict rfl⟩

/-- C4 (counterexample): an exposure time with numerator 1 and denominator 0 is
rendered textually as "1/0" — the field is present and malformed, not absent as the
claim requires for a zero denominator. -/
theorem c4_counterexample :
    (extractTechnicalInfo { exposureTime := some (1, 0) }).shutter_speed = some "1/0" ∧
    (extractTechnicalInfo { exposureTime := some (1, 0) }).shutter_speed ≠ none := by
  refine ⟨by decide, by decide⟩

/-- C4 (amended): rational decoding returns exactly the quotient n/d when d is
nonzero and fails when d is zero; a zero denominator leaves the focal length, the
aperture, an exposure time with numerator ≠ 1, and a DMS conversion absent — but an
exposure time with numerator 1 never divides and is rendered as "1/denominator"
verbatim, even when the denominator is 0. -/
theorem c4_rational_decoding (n d : Int) :
    (d ≠ 0 → ratDecode n d = some ((n : ℚ) / (d : ℚ))) ∧
    ratDecode n 0 = none ∧
    (extractTechnicalInfo { focalLength := some (n, 0) }).focal_length = none ∧
    (extractTechnicalInfo { fNumber := some (n, 0) }).aperture = none ∧
    (n ≠ 1 → (extractTechnicalInfo { exposureTime := some (n, 0) }).shutter_speed = none) ∧
    (extractTechnicalInfo { exposureTime := some (1, d) }).shutter_speed =
      some ("1/" ++ toString d) ∧
    dmsToDecimal ((n, 0), ((1, 1), (1, 1))) (BStr.ok "N") = none := by
  refine ⟨fun hd => by simp [ratDecode, hd], by simp [ratDecode], ?_, ?_, ?_, ?_, ?_⟩
  · simp [extractTechnicalInfo, ratDecode]
  · simp [extractTechnicalInfo, ratDecode]
  · intro hn
    simp [extractTechnicalInfo, ratDecode, hn]
  · simp [extractTechnicalInfo, ratDecode]
  · simp [dmsToDecimal, ratDecode]

/-- C4 (witness): 3/4 decodes to the exact quotient, and an exposure time of 3
over 0 is absent. -/
theorem c4_witness :
    ratDecode 3 4 = some (((3 : Int) : ℚ) / ((4 : Int) : ℚ)) ∧
    (extractTechnicalInfo { exposureTime := some (3, 0) }).shutter_speed = none :=
  ⟨(c4_rational_decoding 3 4).1 (by decide), (c4_rational_decoding 3 4).2.2.2.2.1 (by decide)⟩

/-- C6: when the original copy succeeds, save_with_thumbnails returns the
identifier and the original's storage path, with each derivative path present
exactly when its generator succeeded — a thumbnail or preview failure yields
`none` for that derivative only, never aborts the call, and leaves the other
derivative and the original unaffected. -/
theorem c6_save_with_thumbnails (env : StorageEnv) (u ext : String)
    (hcopy : env.copyOk = true) :
    save_with_thumbnails env u ext = .ok (u,
      (getStoragePath env.baseDir env.now u ext "").path,
      if env.thumbOk then some ((getStoragePath env.baseDir env.now u ".jpg" "_thumb").path)
      else none,
      if env.previewOk then some ((getStoragePath env.baseDir env.now u ".jpg" "_preview").path)
      else none) := by
  simp [save_with_thumbnails, save_photo, hcopy]

/-- C6 (witness): with a failing thumbnail generator and a succeeding preview
generator, the call still returns the original path, a `none` thumbnail and the
preview path. -/
theorem c6_witness :
    save_with_thumbnails c6Env "u1" ".png" =
      .ok ("u1", "root/2024/05/u1.png", none, some "root/2024/05/u1_preview.jpg") := by
  rw [c6_save_with_thumbnails c6Env "u1" ".png" rfl]
  rfl

/-- C7 (counterexample): an upload that both exceeds the size limit and has a
disallowed extension is rejected with the invalid-file-type error, not the
size-exceeded error — the claim's universal "every oversize upload raises
size-exceeded" fails because the extension, MIME and cemetery checks run first. -/
theorem c7_counterexample :
    MAX_FILE_SIZE_BYTES < c7Req.contentSize ∧
    (upload_photo c7Req "u" ".bmp").1 = .error .invalidFileType ∧
    (upload_photo c7Req "u" ".bmp").1 ≠ .error .fileTooLarge := by
  refine ⟨by decide, rfl, ?_⟩
  intro hcontra
  have h2 : (Except.error UploadError.invalidFileType :
      Except UploadError PhotographRecord) = .error .fileTooLarge := by
    rw [← hcontra]
    rfl
  exact absurd (Except.error.inj h2) (by decide)

/-- C7 (amended): for every upload that passes the extension, MIME-type and
cemetery checks and whose content size strictly exceeds MAX_FILE_SIZE_BYTES
(20 MiB), upload_photo raises the size-exceeded error before any decoding work, and
no file — temporary staging file, original, thumbnail or preview — is written. -/
theorem c7_size_rejection (req : UploadRequest) (u e : String)
    (hext : is_allowed_file_extension req.filename = true)
    (hmime : is_allowed_mime_type req.contentType = true)
    (hcem : req.cemeteryExists = true)
    (hsize : MAX_FILE_SIZE_BYTES < req.contentSize) :
    (upload_photo req u e).1 = .error .fileTooLarge ∧ (upload_photo req u e).2 = [] := by
  rw [upload_photo]
  rw [hext, hmime, hcem, if_neg (by simp), if_neg (by simp), if_neg (by simp),
    if_pos hsize]
  exact ⟨rfl, rfl⟩

/-- C7 (witness): a valid JPEG upload one byte over the limit is rejected with the
size error and no filesystem event occurs. -/
theorem c7_witness :
    (upload_photo c7wReq "u" ".jpg").1 = .error .fileTooLarge ∧
    (upload_photo c7wReq "u" ".jpg").2 = [] :=
  c7_size_rejection c7wReq "u" ".jpg" (by decide) (by decide) rfl (by decide)

/-- C8: the allocated storage path is root/YYYY/MM/identifier-sfx-extension with
YYYY and MM taken from the UTC allocation instant, the missing directory
root/YYYY/MM is created, and save_with_thumbnails uses the empty suffix with the
original's extension for the original and the suffixes _thumb and _preview with the
.jpg extension for the derivatives. -/
theorem c8_storage_layout (root : String) (now : UtcInstant) (u e s : String) :
    (getStoragePath root now u e s).path =
      root ++ "/" ++ fmt04 now.year ++ "/" ++ fmt02 now.month ++ "/" ++ u ++ s ++ e ∧
    (getStoragePath root now u e s).dirCreated =
      root ++ "/" ++ fmt04 now.year ++ "/" ++ fmt02 now.month ∧
    (getStoragePath root now u e s).path =
      (getStoragePath root now u e s).dirCreated ++ "/" ++ u ++ s ++ e ∧
    (∀ env : StorageEnv, env.copyOk = true →
      save_with_thumbnails env u e = .ok (u,
        (getStoragePath env.baseDir env.now u e "").path,
        if env.thumbOk then
          some ((getStoragePath env.baseDir env.now u ".jpg" "_thumb").path)
        else none,
        if env.previewOk then
          some ((getStoragePath env.baseDir env.now u ".jpg" "_preview").path)
        else none)) := by
  refine ⟨?_, rfl, ?_, ?_⟩
  · simp [getStoragePath, String.append_assoc]
  · simp [getStoragePath, String.append_assoc]
  · intro env hcopy
    simp [save_with_thumbnails, save_photo, hcopy]

/-- C9 (counterexample): an ISO value of 0 decodes but is falsy under the source's
`if iso:` guard, so it is reported absent rather than verbatim as the integer 0. -/
theorem c9_counterexample :
    (extractTechnicalInfo { iso := some 0 }).iso = none ∧
    (extractTechnicalInfo { iso := some 0 }).iso ≠ some 0 := by
  refine ⟨by decide, by decide⟩

/-- C9 (amended): for decodable technical fields, focal length renders as the
quotient to zero decimal places followed by mm, aperture as f/ followed by the
quotient to one decimal place, shutter speed as 1/denominator when the numerator is
1 and otherwise as the quotient to two decimal places suffixed s, and ISO verbatim
as an integer when it is nonzero (an ISO of exactly 0 is falsy and reported
absent). -/
theorem c9_technical_formatting (n d k : Int) (hd : d ≠ 0) (hk : k ≠ 0) :
    (extractTechnicalInfo { focalLength := some (n, d) }).focal_length =
      some (fmtFixed ((n : ℚ) / (d : ℚ)) 0 ++ "mm") ∧
    (extractTechnicalInfo { fNumber := some (n, d) }).aperture =
      some ("f/" ++ fmtFixed ((n : ℚ) / (d : ℚ)) 1) ∧
    (extractTechnicalInfo { exposureTime := some (1, d) }).shutter_speed =
      some ("1/" ++ toString d) ∧
    (n ≠ 1 → (extractTechnicalInfo { exposureTime := some (n, d) }).shutter_speed =
      some (fmtFixed ((n : ℚ) / (d : ℚ)) 2 ++ "s")) ∧
    (extractTechnicalInfo { iso := some k }).iso = some k := by
  refine ⟨?_, ?_, rfl, ?_, ?_⟩
  · simp [extractTechnicalInfo, ratDecode, hd]
  · simp [extractTechnicalInfo, ratDecode, hd]
  · intro hn
    simp [extractTechnicalInfo, ratDecode, hd, hn]
  · simp [extractTechnicalInfo, hk]

/-- C9 (witness): focal 50/1 renders "50mm", F-number 28/10 renders "f/2.8",
exposure 1/250 renders "1/250", exposure 3/4 renders "0.75s", and ISO 200 is
reported verbatim. -/
theorem c9_witness :
    (extractTechnicalInfo { focalLength := some (50, 1) }).focal_length =
      some "50mm" ∧
    (extractTechnicalInfo { fNumber := some (28, 10) }).aperture = some "f/2.8" ∧
    (extractTechnicalInfo { exposureTime := some (1, 250) }).shutter_speed =
      some "1/250" ∧
    (extractTechnicalInfo { exposureTime := some (3, 4) }).shutter_speed =
      some "0.75s" ∧
    (extractTechnicalInfo { iso := some 200 }).iso = some 200 := by
  have hfl := (c9_technical_formatting 50 1 200 (by decide) (by decide)).1
  have hap := (c9_technical_formatting 28 10 200 (by decide) (by decide)).2.1
  have hss1 := (c9_technical_formatting 1 250 200 (by decide) (by decide)).2.2.1
  have hss2 := (c9_technical_formatting 3 4 200 (by decide) (by decide)).2.2.2.1 (by decide)
  have hiso := (c9_technical_formatting 3 4 200 (by decide) (by decide)).2.2.2.2
  refine ⟨?_, ?_, ?_, ?_, hiso⟩
  · rw [hfl]
    have h0 : ((50 : Int) : ℚ) / ((1 : Int) : ℚ) * 10 ^ 0 = 50 := by norm_num
    have h2 : roundHalfEven ((50 : ℚ)) = 50 := by norm_num [roundHalfEven, ratFloor]
    rw [fmtFixed, h0, h2]
    rfl
  · rw [hap]
    have h0 : ((28 : Int) : ℚ) / ((10 : Int) : ℚ) * 10 ^ 1 = 28 := by norm_num
    have h2 : roundHalfEven ((28 : ℚ)) = 28 := by norm_num [roundHalfEven, ratFloor]
    rw [fmtFixed, h0, h2]
    rfl
  · rw [hss1]
    rfl
  · rw [hss2]
    have h0 : ((3 : Int) : ℚ) / ((4 : Int) : ℚ) * 10 ^ 2 = 75 := by norm_num
    have h2 : roundHalfEven ((75 : ℚ)) = 75 := by norm_num [roundHalfEven, ratFloor]
    rw [fmtFixed, h0, h2]
    rfl

/-- C10: on every successful upload the stored GPS location equals the
truthiness-guarded pair: it is attached exactly when both extracted coordinates are
present and nonzero, so a successfully extracted coordinate whose latitude or
longitude is exactly 0 is silently dropped; the concrete equator upload (latitude
0, longitude 5) stores no GPS location. -/
theorem c10_gps_attachment :
    (∀ (req : UploadRequest) (u e : String),
      (upload_photo req u e).1.map (fun r => r.exif_gps_location) =
        (upload_photo req u e).1.map (fun _ =>
          if truthyQ (extract_metadata req.image).gps_latitude &&
              truthyQ (extract_metadata req.image).gps_longitude then
            some (normalize_gps ((extract_metadata req.image).gps_latitude.getD 0)
              ((extract_metadata req.image).gps_longitude.getD 0))
          else none)) ∧
    (upload_photo c10Req "u1" ".jpg").1.map (fun r => r.exif_gps_location) =
      .ok none := by
  have hmain : ∀ (req : UploadRequest) (u e : String),
      (upload_photo req u e).1.map (fun r => r.exif_gps_location) =
        (upload_photo req u e).1.map (fun _ =>
          if truthyQ (extract_metadata req.image).gps_latitude &&
              truthyQ (extract_metadata req.image).gps_longitude then
            some (normalize_gps ((extract_metadata req.image).gps_latitude.getD 0)
              ((extract_metadata req.image).gps_longitude.getD 0))
          else none) := by
    intro req u e
    simp only [upload_photo]
    split
    · rfl
    split
    · rfl
    split
    · rfl
    split
    · rfl
    cases hs : save_with_thumbnails req.storage u e with
    | error err => rfl
    | ok tup =>
      obtain ⟨u2, originalPath, thumbnailPath, previewPath⟩ := tup
      split_ifs with hc <;> simp [Except.map, hc]
  refine ⟨hmain, ?_⟩
  have hgps : extractGps c10Dict = some (0, 5) := by
    rw [extractGps]
    show (if refTruthy (.ok "N") && refTruthy (.ok "E") then _ else _) = _
    rw [if_pos (by decide)]
    have hlat : dmsToDecimal ((0, 1), ((0, 1), (0, 1))) (BStr.ok "N") = some 0 := by
      norm_num [dmsToDecimal, ratDecode]
    have hlon : dmsToDecimal ((5, 1), ((0, 1), (0, 1))) (BStr.ok "E") = some 5 := by
      norm_num [dmsToDecimal, ratDecode]
      decide
    rw [hlat, hlon]
  have hlat0 : (extract_metadata c10Req.image).gps_latitude = some 0 := by
    show (extract_metadata (.readable 100 80 (.loaded c10Dict))).gps_latitude = some 0
    rw [extract_metadata_loaded]
    cases hc : extractCameraInfo c10Dict.zeroth <;> simp [hgps]
  rw [hmain c10Req "u1" ".jpg"]
  have ht : truthyQ (some (0 : ℚ)) = false := by norm_num [truthyQ]
  have hsave : save_with_thumbnails c7Env "u1" ".jpg" =
      .ok ("u1", "root/2024/05/u1.jpg", some "root/2024/05/u1_thumb.jpg",
        some "root/2024/05/u1_preview.jpg") := rfl
  simp only [hlat0, ht, Bool.false_and, Bool.false_eq_true, if_false]
  simp only [upload_photo]
  rw [if_neg (by decide), if_neg (by decide), if_neg (by decide), if_neg (by decide)]
  rw [show c10Req.storage = c7Env from rfl, hsave]
  rfl

/-- C8 (witness): identifier u1 with extension .png allocated at May 2024 maps to
root/2024/05/u1.png, and the derivatives to root/2024/05/u1_thumb.jpg and
root/2024/05/u1_preview.jpg. -/
theorem c8_witness :
    (getStoragePath "root" ⟨2024, 5⟩ "u1" ".png" "").path = "root/2024/05/u1.png" ∧
    save_with_thumbnails c7Env "u1" ".png" =
      .ok ("u1", "root/2024/05/u1.png", some "root/2024/05/u1_thumb.jpg",
           some "root/2024/05/u1_preview.jpg") := by
  have h := c8_storage_layout "root" ⟨2024, 5⟩ "u1" ".png" ""
  refine ⟨?_, ?_⟩
  · rw [h.1]
    rfl
  · rw [h.2.2.2 c7Env rfl]
    rfl


